import Mathlib

/-!
Verification of the BLE advertisement decoder (iBeacon / Eddystone) of this
repository, shallowly embedded from src/ble_scanner.py.

Bytes are modelled as Fin 256. Python operations that can raise are modelled
in the Except String monad: indexing a bytes object out of range raises
IndexError, and struct.unpack raises struct.error when the buffer size does
not match the format. Python slicing b[a:c] never raises and silently
truncates, which is modelled by drop and take. The try/except Exception
wrapper at each parser boundary catches every such error and returns None.
-/

namespace BLE

/-- A byte, as delivered by the bleak advertisement payloads. -/
abbrev Byte := Fin 256

/-- Python slice b[a:c] for nonnegative a, c: never raises, truncates. -/
def pySlice (l : List Byte) (a c : Nat) : List Byte :=
  (l.drop a).take (c - a)

/-- Python indexing b[i] for nonnegative i: IndexError when out of range. -/
def pyIndex (l : List Byte) (i : Nat) : Except String Byte :=
  match l.get? i with
  | some b => .ok b
  | none => .error "IndexError"

/-- Python struct.unpack with format b (one signed byte): struct.error unless
the buffer holds exactly one byte. -/
def unpack_b (l : List Byte) : Except String Int :=
  match l with
  | [b] => .ok (if b.val < 128 then (b.val : Int) else (b.val : Int) - 256)
  | _ => .error "struct.error"

/-- Python struct.unpack with format >H (big-endian unsigned 16-bit):
struct.error unless the buffer holds exactly two bytes. -/
def unpack_H (l : List Byte) : Except String Nat :=
  match l with
  | [hi, lo] => .ok (hi.val * 256 + lo.val)
  | _ => .error "struct.error"

/-- Python struct.unpack with format >h (big-endian signed 16-bit):
struct.error unless the buffer holds exactly two bytes. -/
def unpack_h (l : List Byte) : Except String Int :=
  match l with
  | [hi, lo] =>
      let n := hi.val * 256 + lo.val
      .ok (if n < 32768 then (n : Int) else (n : Int) - 65536)
  | _ => .error "struct.error"

/-- Python struct.unpack with format >I (big-endian unsigned 32-bit):
struct.error unless the buffer holds exactly four bytes. -/
def unpack_I (l : List Byte) : Except String Nat :=
  match l with
  | [b0, b1, b2, b3] =>
      .ok (((b0.val * 256 + b1.val) * 256 + b2.val) * 256 + b3.val)
  | _ => .error "struct.error"

/-- Lowercase hex digit for a value below 16, as produced by bytes.hex(). -/
def hexDigitL (n : Nat) : Char :=
  if n < 10 then Char.ofNat (48 + n) else Char.ofNat (87 + n)

/-- Character list of the lowercase hex encoding of a byte string. -/
def hexChars (l : List Byte) : List Char :=
  l.foldr (fun b acc => hexDigitL (b.val / 16) :: hexDigitL (b.val % 16) :: acc) []

/-- Python bytes.hex(): lowercase hex, two digits per byte. -/
def hexEncode (l : List Byte) : String :=
  String.mk (hexChars l)

/-- Uppercase hex digit for a value below 16. -/
def hexDigitU (n : Nat) : Char :=
  if n < 10 then Char.ofNat (48 + n) else Char.ofNat (55 + n)

/-- Hex digits of n, most significant first, accumulator form. -/
def natHexAux (fuel n : Nat) (digit : Nat → Char) (acc : List Char) : List Char :=
  match fuel with
  | 0 => acc
  | fuel + 1 =>
      if n = 0 then acc
      else natHexAux fuel (n / 16) digit (digit (n % 16) :: acc)

/-- Hex digit string of n (at least one digit). -/
def natHex (n : Nat) (digit : Nat → Char) : List Char :=
  if n = 0 then [digit 0] else natHexAux n n digit []

/-- Python format string 0x with 04X: uppercase hex zero-padded to width 4,
as used for the company identifier. -/
def formatCompanyId (cid : Nat) : String :=
  let ds := natHex cid hexDigitU
  "0x" ++ String.mk (List.replicate (4 - ds.length) '0' ++ ds)

/-- Python builtin hex(): 0x followed by lowercase hex digits, no padding. -/
def pyHex (n : Nat) : String :=
  "0x" ++ String.mk (natHex n hexDigitL)

/-- Python str.join: parts joined by the separator string. -/
def pyJoin (sep : String) : List String → String
  | [] => ""
  | [s] => s
  | s :: rest => s ++ sep ++ pyJoin sep rest

/-- The dictionary returned by a successful BeaconScanner.parse_ibeacon. -/
structure IBeaconResult where
  type : String
  uuid : String
  major : Nat
  minor : Nat
  tx_power : Int
  raw_data : String
deriving Repr, DecidableEq

/-- Body of BeaconScanner.parse_ibeacon before the except clause: the code
inside the try block, with each fallible Python operation in Except. -/
def parse_ibeacon_body (mfg_data : List Byte) : Except String (Option IBeaconResult) :=
  -- ibeacon_prefix = mfg_data[0:2] : a slice, never raises, otherwise unused
  if mfg_data.length < 23 then
    pure none
  else do
  let uuid_bytes := pySlice mfg_data 2 18
  let major ← unpack_H (pySlice mfg_data 18 20)
  let minor ← unpack_H (pySlice mfg_data 20 22)
  let tx_power ← unpack_b (pySlice mfg_data 22 23)
  return some
    { type := "iBeacon"
      uuid := pyJoin "-"
        [ hexEncode (pySlice uuid_bytes 0 4)
        , hexEncode (pySlice uuid_bytes 4 6)
        , hexEncode (pySlice uuid_bytes 6 8)
        , hexEncode (pySlice uuid_bytes 8 10)
        , hexEncode (pySlice uuid_bytes 10 16) ]
      major := major
      minor := minor
      tx_power := tx_power
      raw_data := hexEncode mfg_data }

/-- BeaconScanner.parse_ibeacon: the try/except Exception boundary catches any
raised error and returns None. The Except codomain records that the call
itself never propagates an error. -/
def parse_ibeacon (mfg_data : List Byte) : Except String (Option IBeaconResult) :=
  match parse_ibeacon_body mfg_data with
  | .ok r => .ok r
  | .error _ => .ok none

/-- The dictionary returned by a successful BeaconScanner.parse_eddystone:
keys absent from the dict are None here. -/
structure EddystoneResult where
  type : String
  frame_type : String
  raw_data : String
  frame_type_name : Option String := none
  tx_power : Option Int := none
  namespace_ : Option String := none
  instance_ : Option String := none
  url_scheme : Option Nat := none
  encoded_url : Option String := none
  version : Option Nat := none
  battery_voltage : Option Nat := none
  temperature : Option ℚ := none
  advertising_count : Option Nat := none
  seconds_since_boot : Option Nat := none
deriving Repr, DecidableEq

/-- Body of BeaconScanner.parse_eddystone before the except clause. -/
def parse_eddystone_body (service_data : List Byte) : Except String EddystoneResult := do
  let frame_type ← pyIndex service_data 0
  let result : EddystoneResult :=
    { type := "Eddystone"
      frame_type := pyHex frame_type.val
      raw_data := hexEncode service_data }
  if frame_type.val = 0x00 then
    let tx_power ← unpack_b (pySlice service_data 1 2)
    return { result with
      frame_type_name := some "UID"
      tx_power := some tx_power
      namespace_ := some (hexEncode (pySlice service_data 2 12))
      instance_ := some (hexEncode (pySlice service_data 12 18)) }
  else if frame_type.val = 0x10 then
    let tx_power ← unpack_b (pySlice service_data 1 2)
    let url_scheme ← pyIndex service_data 2
    return { result with
      frame_type_name := some "URL"
      tx_power := some tx_power
      url_scheme := some url_scheme.val
      encoded_url := some (hexEncode (service_data.drop 3)) }
  else if frame_type.val = 0x20 then
    let version ← pyIndex service_data 1
    let battery ← unpack_H (pySlice service_data 2 4)
    let temp ← unpack_h (pySlice service_data 4 6)
    let adv ← unpack_I (pySlice service_data 6 10)
    let secs ← unpack_I (pySlice service_data 10 14)
    return { result with
      frame_type_name := some "TLM"
      version := some version.val
      battery_voltage := some battery
      temperature := some ((temp : ℚ) / 256)
      advertising_count := some adv
      seconds_since_boot := some secs }
  else
    return result

/-- BeaconScanner.parse_eddystone: the try/except Exception boundary catches
any raised error and returns None. -/
def parse_eddystone (service_data : List Byte) : Except String (Option EddystoneResult) :=
  match parse_eddystone_body service_data with
  | .ok r => .ok (some r)
  | .error _ => .ok none

/-- The dictionary built by the second copy of the decoder, the
BeaconScanner.parse_eddystone of src/ble_scanner_to_csv.py: keys absent from
the dict are none here. This variant overwrites the frame_type key with the
frame name on a recognized frame, and its URL and TLM branches write fewer
keys than the ble_scanner.py variant: url_scheme, encoded_url, version,
advertising_count and seconds_since_boot are never written by this parser
(no branch of it mentions them), so those fields are none in every result
it produces. -/
structure EddystoneCsvResult where
  beacon_type : String
  frame_type : String
  raw_data : String
  tx_power : Option Int := none
  namespace_ : Option String := none
  instance_ : Option String := none
  battery_voltage : Option Nat := none
  temperature : Option ℚ := none
  url_scheme : Option Nat := none
  encoded_url : Option String := none
  version : Option Nat := none
  advertising_count : Option Nat := none
  seconds_since_boot : Option Nat := none
deriving Repr, DecidableEq

/-- Body of the try block of ble_scanner_to_csv.py's
BeaconScanner.parse_eddystone. -/
def parse_eddystone_csv_body (service_data : List Byte) : Except String EddystoneCsvResult := do
  let frame_type ← pyIndex service_data 0
  let result : EddystoneCsvResult :=
    { beacon_type := "Eddystone"
      frame_type := pyHex frame_type.val
      raw_data := hexEncode service_data }
  if frame_type.val = 0x00 then
    let tx_power ← unpack_b (pySlice service_data 1 2)
    return { result with
      frame_type := "UID"
      tx_power := some tx_power
      namespace_ := some (hexEncode (pySlice service_data 2 12))
      instance_ := some (hexEncode (pySlice service_data 12 18)) }
  else if frame_type.val = 0x10 then
    let tx_power ← unpack_b (pySlice service_data 1 2)
    return { result with
      frame_type := "URL"
      tx_power := some tx_power }
  else if frame_type.val = 0x20 then
    let battery ← unpack_H (pySlice service_data 2 4)
    let temp ← unpack_h (pySlice service_data 4 6)
    return { result with
      frame_type := "TLM"
      battery_voltage := some battery
      temperature := some ((temp : ℚ) / 256) }
  else
    return result

/-- The ble_scanner_to_csv.py BeaconScanner.parse_eddystone: the same
try/except Exception boundary, catching any raised error and returning
None. -/
def parse_eddystone_csv (service_data : List Byte) : Except String (Option EddystoneCsvResult) :=
  match parse_eddystone_csv_body service_data with
  | .ok r => .ok (some r)
  | .error _ => .ok none

/-- The result dict built by BeaconScanner.parse_manufacturer_data: a key
absent from the dict is None here. -/
structure MfgRecord where
  company_id : Option String := none
  type : Option String := none
  uuid : Option String := none
  major : Option Nat := none
  minor : Option Nat := none
  tx_power : Option Int := none
  raw_data : Option String := none
deriving Repr, DecidableEq

/-- One iteration of the loop in BeaconScanner.parse_manufacturer_data over
an entry (company_id, data): sets the company_id key, then for Apple merges a
successful iBeacon dict via result.update, else sets raw_data. -/
def mfgStep (r : MfgRecord) (entry : Nat × List Byte) : MfgRecord :=
  let r := { r with company_id := some (formatCompanyId entry.1) }
  if entry.1 = 0x004C then
    match parse_ibeacon entry.2 with
    | .ok (some ib) =>
        { r with
          type := some ib.type
          uuid := some ib.uuid
          major := some ib.major
          minor := some ib.minor
          tx_power := some ib.tx_power
          raw_data := some ib.raw_data }
    | _ => r
  else
    { r with raw_data := some (hexEncode entry.2) }

/-- BeaconScanner.parse_manufacturer_data: folds over the manufacturer-data
mapping in insertion order (Python dicts iterate in insertion order),
starting from the empty dict. -/
def parse_manufacturer_data (mfg_data : List (Nat × List Byte)) : MfgRecord :=
  mfg_data.foldl mfgStep {}

/-- Value of a hex digit character, as accepted by Python bytes.fromhex. -/
def hexDigitVal (c : Char) : Option Nat :=
  if 48 ≤ c.toNat ∧ c.toNat ≤ 57 then some (c.toNat - 48)
  else if 97 ≤ c.toNat ∧ c.toNat ≤ 102 then some (c.toNat - 87)
  else if 65 ≤ c.toNat ∧ c.toNat ≤ 70 then some (c.toNat - 55)
  else none

/-- Modelled from the spec: hex decoding (Python bytes.fromhex on a string of
hex-digit pairs), the inverse direction of the round-trip property; the
repository itself only hex-encodes. -/
def hexDecodeChars : List Char → Option (List Byte)
  | [] => some []
  | c1 :: c2 :: rest => do
      let hi ← hexDigitVal c1
      let lo ← hexDigitVal c2
      let r ← hexDecodeChars rest
      if h : hi * 16 + lo < 256 then some (⟨hi * 16 + lo, h⟩ :: r) else none
  | [_] => none

/-- Hex decoding of a string. -/
def hexDecode (s : String) : Option (List Byte) :=
  hexDecodeChars s.data

/-- Byte at offset i of a buffer, defaulting to 0; used only to state claims
about buffers long enough that the default is never reached. -/
def byteAt (l : List Byte) (i : Nat) : Byte :=
  l.getD i 0

/-- Signed value of one byte (two's complement), for stating claims. -/
def signed8 (b : Byte) : Int :=
  if b.val < 128 then (b.val : Int) else (b.val : Int) - 256

/-- Unsigned big-endian 16-bit integer at offset i, for stating claims. -/
def u16be (l : List Byte) (i : Nat) : Nat :=
  (byteAt l i).val * 256 + (byteAt l (i + 1)).val

/-- Signed big-endian 16-bit integer at offset i, for stating claims. -/
def s16be (l : List Byte) (i : Nat) : Int :=
  let n := u16be l i
  if n < 32768 then (n : Int) else (n : Int) - 65536

/-- Unsigned big-endian 32-bit integer at offset i, for stating claims. -/
def u32be (l : List Byte) (i : Nat) : Nat :=
  (((byteAt l i).val * 256 + (byteAt l (i + 1)).val) * 256
    + (byteAt l (i + 2)).val) * 256 + (byteAt l (i + 3)).val

/-- The 8-4-4-4-12 hyphenated grouping of the hex digits of bytes 2 to 17,
exactly as the spec words it: hex-encode the 16 bytes, then insert hyphens
after hex digit 8, 12, 16 and 20, lowercase. -/
def specUuid (l : List Byte) : String :=
  let h := hexChars (pySlice l 2 18)
  String.mk (h.take 8 ++ '-' :: ((h.drop 8).take 4 ++ '-' ::
    ((h.drop 12).take 4 ++ '-' :: ((h.drop 16).take 4 ++ '-' :: h.drop 20))))

/-! Concrete advertisement payloads used as test vectors. -/

/-- The known-good 23-byte iBeacon manufacturer payload of the spec: prefix
02 15, UUID e2c56db5-dffb-48d2-b060-d0f5a71096e0, major 1, minor 2,
txPower 0xC5. -/
def ibeaconVec : List Byte :=
  [0x02, 0x15, 0xE2, 0xC5, 0x6D, 0xB5, 0xDF, 0xFB, 0x48, 0xD2, 0xB0, 0x60,
   0xD0, 0xF5, 0xA7, 0x10, 0x96, 0xE0, 0x00, 0x01, 0x00, 0x02, 0xC5]

/-- The Eddystone TLM test buffer of the spec:
20 00 0BE4 0C98 00000005 00000578. -/
def tlmVec : List Byte :=
  [0x20, 0x00, 0x0B, 0xE4, 0x0C, 0x98, 0x00, 0x00, 0x00, 0x05,
   0x00, 0x00, 0x05, 0x78]

/-- A 17-byte Eddystone UID buffer, one byte short of the 18-byte minimum. -/
def uid17Vec : List Byte :=
  [0x00, 0xC5, 0x01, 0x02, 0x03, 0x04, 0x05, 0x06, 0x07, 0x08, 0x09, 0x0A,
   0x0B, 0x0C, 0x0D, 0x0E, 0x0F]

/-- The record that parse_ibeacon produces on ibeaconVec. -/
def ibeaconRecord : IBeaconResult :=
  { type := "iBeacon", uuid := "e2c56db5-dffb-48d2-b060-d0f5a71096e0",
    major := 1, minor := 2, tx_power := -59,
    raw_data := "0215e2c56db5dffb48d2b060d0f5a71096e000010002c5" }

/-- The two-entry manufacturer-data mapping of the spec's multiple-entry
test: a valid iBeacon payload under Apple's company ID followed by a 3-byte
payload under company ID 0x0999. -/
def mfgVecC6 : List (Nat × List Byte) :=
  [(0x004C, ibeaconVec), (0x0999, [0x01, 0x02, 0x03])]

/-- The record the csv-variant Eddystone parser produces on the spec's TLM
test buffer: the TLM branch of ble_scanner_to_csv.py writes only the frame
name, battery voltage and temperature. -/
def csvTlmRecord : EddystoneCsvResult :=
  { beacon_type := "Eddystone", frame_type := "TLM", raw_data := hexEncode tlmVec,
    battery_voltage := some (u16be tlmVec 2),
    temperature := some ((s16be tlmVec 4 : ℚ) / 256) }

/-- The record the csv-variant Eddystone parser produces on the two-byte URL
buffer 10 C5: a structured result despite the buffer being shorter than 3
bytes, with only txPower set. -/
def csvUrlRecord : EddystoneCsvResult :=
  { beacon_type := "Eddystone", frame_type := "URL", raw_data := "10c5",
    tx_power := some (-59) }

/-! Basic lemmas about the embedded Python primitives. -/

theorem pySlice_succ (l : List Byte) (i c : Nat) (h : i < l.length) (hc : i < c) :
    pySlice l i c = byteAt l i :: pySlice l (i + 1) c := by
  unfold pySlice byteAt
  rw [List.drop_eq_getElem_cons h, List.getD_eq_getElem l 0 h]
  have hsub : c - i = (c - (i + 1)) + 1 := by omega
  rw [hsub, List.take_succ_cons]

theorem pySlice_stop (l : List Byte) (i c : Nat) (hc : c ≤ i) :
    pySlice l i c = [] := by
  unfold pySlice
  rw [Nat.sub_eq_zero_of_le hc, List.take_zero]

theorem pyIndex_ok (l : List Byte) (i : Nat) (h : i < l.length) :
    pyIndex l i = .ok (byteAt l i) := by
  unfold pyIndex byteAt
  rw [List.get?_eq_getElem?, List.getElem?_eq_getElem h, List.getD_eq_getElem l 0 h]

theorem unpack_b_slice (l : List Byte) (i c : Nat) (hc : c = i + 1)
    (h : i < l.length) : unpack_b (pySlice l i c) = .ok (signed8 (byteAt l i)) := by
  subst hc
  rw [pySlice_succ l i _ h (by omega), pySlice_stop l _ _ (le_refl _)]
  rfl

theorem unpack_H_slice (l : List Byte) (i c : Nat) (hc : c = i + 2)
    (h : i + 1 < l.length) : unpack_H (pySlice l i c) = .ok (u16be l i) := by
  subst hc
  rw [pySlice_succ l i _ (by omega) (by omega),
    pySlice_succ l (i + 1) _ h (by omega), pySlice_stop l _ _ (le_refl _)]
  rfl

theorem unpack_h_slice (l : List Byte) (i c : Nat) (hc : c = i + 2)
    (h : i + 1 < l.length) : unpack_h (pySlice l i c) = .ok (s16be l i) := by
  subst hc
  rw [pySlice_succ l i _ (by omega) (by omega),
    pySlice_succ l (i + 1) _ h (by omega), pySlice_stop l _ _ (le_refl _)]
  rfl

theorem unpack_I_slice (l : List Byte) (i c : Nat) (hc : c = i + 4)
    (h : i + 3 < l.length) : unpack_I (pySlice l i c) = .ok (u32be l i) := by
  subst hc
  rw [pySlice_succ l i _ (by omega) (by omega),
    pySlice_succ l (i + 1) _ (by omega) (by omega),
    pySlice_succ l (i + 2) _ (by omega) (by omega),
    pySlice_succ l (i + 3) _ h (by omega), pySlice_stop l _ _ (le_refl _)]
  rfl

theorem exceptBind_ok {α β : Type} {e : Except String α} {k : α → Except String β}
    {r : β} (h : e >>= k = .ok r) : ∃ a, e = .ok a ∧ k a = .ok r := by
  cases e with
  | error err => exact absurd h (by simp [Bind.bind, Except.bind])
  | ok a => exact ⟨a, rfl, by simpa [Bind.bind, Except.bind] using h⟩

theorem string_mk_append (a b : List Char) :
    String.mk a ++ String.mk b = String.mk (a ++ b) := rfl

/-! Lemmas about hex encoding of byte lists. -/

theorem hexChars_cons (b : Byte) (t : List Byte) :
    hexChars (b :: t) = hexDigitL (b.val / 16) :: hexDigitL (b.val % 16) :: hexChars t := rfl

theorem hexChars_take (l : List Byte) (n : Nat) :
    (hexChars l).take (2 * n) = hexChars (l.take n) := by
  induction l generalizing n with
  | nil => simp [hexChars]
  | cons b t ih =>
      cases n with
      | zero => simp [hexChars]
      | succ m => exact congrArg _ (congrArg _ (ih m))

theorem hexChars_drop (l : List Byte) (n : Nat) :
    (hexChars l).drop (2 * n) = hexChars (l.drop n) := by
  induction l generalizing n with
  | nil => simp [hexChars]
  | cons b t ih =>
      cases n with
      | zero => simp
      | succ m => exact ih m

theorem length_pySlice (l : List Byte) (a c : Nat) (h : c ≤ l.length) :
    (pySlice l a c).length = c - a := by
  unfold pySlice
  rw [List.length_take, List.length_drop]
  omega

/-- The uuid string built by parse_ibeacon from per-group slices equals the
8-4-4-4-12 grouping of the hex digits of bytes 2 to 17. -/
theorem uuid_slices_eq (l : List Byte) (h : 23 ≤ l.length) :
    pyJoin "-"
      [ hexEncode (pySlice (pySlice l 2 18) 0 4)
      , hexEncode (pySlice (pySlice l 2 18) 4 6)
      , hexEncode (pySlice (pySlice l 2 18) 6 8)
      , hexEncode (pySlice (pySlice l 2 18) 8 10)
      , hexEncode (pySlice (pySlice l 2 18) 10 16) ] = specUuid l := by
  have hu : (pySlice l 2 18).length = 16 := by
    rw [length_pySlice l 2 18 (by omega)]
  generalize hgen : pySlice l 2 18 = u at *
  unfold pyJoin pyJoin pyJoin pyJoin pyJoin specUuid
  rw [hgen]
  unfold hexEncode
  show String.mk _ ++ String.mk ['-'] ++ (String.mk _ ++ String.mk ['-'] ++
    (String.mk _ ++ String.mk ['-'] ++ (String.mk _ ++ String.mk ['-'] ++ String.mk _))) = _
  simp only [string_mk_append]
  congr 1
  have t8 : (hexChars u).take 8 = hexChars (u.take 4) := hexChars_take u 4
  have d8 : (hexChars u).drop 8 = hexChars (u.drop 4) := hexChars_drop u 4
  have d12 : (hexChars u).drop 12 = hexChars (u.drop 6) := hexChars_drop u 6
  have d16 : (hexChars u).drop 16 = hexChars (u.drop 8) := hexChars_drop u 8
  have d20 : (hexChars u).drop 20 = hexChars (u.drop 10) := hexChars_drop u 10
  rw [t8, d8, d12, d16, d20, hexChars_take (u.drop 4) 2, hexChars_take (u.drop 6) 2,
    hexChars_take (u.drop 8) 2]
  have hlast : (u.drop 10).take 6 = u.drop 10 := by
    apply List.take_of_length_le
    rw [List.length_drop]
    omega
  unfold pySlice
  rw [List.drop_zero, hlast]
  simp

theorem okBind {α β : Type} (a : α) (k : α → Except String β) :
    (Except.ok a >>= k) = k a := rfl

theorem errBind {α β : Type} (e : String) (k : α → Except String β) :
    ((Except.error e : Except String α) >>= k) = .error e := rfl

theorem pure_ok {α : Type} (a : α) : (pure a : Except String α) = .ok a := rfl

theorem get?_lt {l : List Byte} {i : Nat} {b : Byte} (h : l.get? i = some b) :
    i < l.length := by
  rw [List.get?_eq_getElem?] at h
  exact (List.getElem?_eq_some.mp h).1

theorem byteAt_of_get? {l : List Byte} {i : Nat} {b : Byte} (h : l.get? i = some b) :
    byteAt l i = b := by
  unfold byteAt
  rw [List.getD_eq_getD_get?, h]
  rfl

theorem pyIndex_of_get? {l : List Byte} {i : Nat} {b : Byte} (h : l.get? i = some b) :
    pyIndex l i = .ok b := by
  unfold pyIndex
  rw [h]

/-! Characterization of parse_ibeacon. -/

theorem parse_ibeacon_body_ok (l : List Byte) (h : 23 ≤ l.length) :
    parse_ibeacon_body l = .ok (some
      { type := "iBeacon", uuid := specUuid l, major := u16be l 18,
        minor := u16be l 20, tx_power := signed8 (byteAt l 22),
        raw_data := hexEncode l }) := by
  unfold parse_ibeacon_body
  rw [if_neg (Nat.not_lt.mpr h),
    unpack_H_slice l 18 20 (by norm_num) (by omega), okBind,
    unpack_H_slice l 20 22 (by norm_num) (by omega), okBind,
    unpack_b_slice l 22 23 (by norm_num) (by omega), okBind,
    ← uuid_slices_eq l h]
  rfl

theorem parse_ibeacon_ok (l : List Byte) (h : 23 ≤ l.length) :
    parse_ibeacon l = .ok (some
      { type := "iBeacon", uuid := specUuid l, major := u16be l 18,
        minor := u16be l 20, tx_power := signed8 (byteAt l 22),
        raw_data := hexEncode l }) := by
  unfold parse_ibeacon
  rw [parse_ibeacon_body_ok l h]

theorem parse_ibeacon_short (l : List Byte) (h : l.length < 23) :
    parse_ibeacon l = .ok none := by
  unfold parse_ibeacon parse_ibeacon_body
  rw [if_pos h]
  rfl

/-! Characterization of parse_eddystone on each frame type. -/

theorem parse_eddystone_body_uid (l : List Byte) (h0 : l.get? 0 = some 0x00)
    (h : 2 ≤ l.length) :
    parse_eddystone_body l = .ok
      { type := "Eddystone", frame_type := "0x0", raw_data := hexEncode l,
        frame_type_name := some "UID", tx_power := some (signed8 (byteAt l 1)),
        namespace_ := some (hexEncode (pySlice l 2 12)),
        instance_ := some (hexEncode (pySlice l 12 18)) } := by
  unfold parse_eddystone_body
  rw [pyIndex_of_get? h0, okBind, if_pos (show ((0x00 : Byte)).val = 0x00 from rfl),
    unpack_b_slice l 1 2 (by norm_num) (by omega), okBind]
  rfl

theorem parse_eddystone_body_url (l : List Byte) (h0 : l.get? 0 = some 0x10)
    (h : 3 ≤ l.length) :
    parse_eddystone_body l = .ok
      { type := "Eddystone", frame_type := "0x10", raw_data := hexEncode l,
        frame_type_name := some "URL", tx_power := some (signed8 (byteAt l 1)),
        url_scheme := some (byteAt l 2).val,
        encoded_url := some (hexEncode (l.drop 3)) } := by
  unfold parse_eddystone_body
  rw [pyIndex_of_get? h0, okBind, if_neg (show ¬((0x10 : Byte)).val = 0x00 by decide),
    if_pos (show ((0x10 : Byte)).val = 0x10 from rfl),
    unpack_b_slice l 1 2 (by norm_num) (by omega), okBind,
    pyIndex_ok l 2 (by omega), okBind]
  rfl

theorem parse_eddystone_body_tlm (l : List Byte) (h0 : l.get? 0 = some 0x20)
    (h : 14 ≤ l.length) :
    parse_eddystone_body l = .ok
      { type := "Eddystone", frame_type := "0x20", raw_data := hexEncode l,
        frame_type_name := some "TLM", version := some (byteAt l 1).val,
        battery_voltage := some (u16be l 2),
        temperature := some ((s16be l 4 : ℚ) / 256),
        advertising_count := some (u32be l 6),
        seconds_since_boot := some (u32be l 10) } := by
  unfold parse_eddystone_body
  rw [pyIndex_of_get? h0, okBind, if_neg (show ¬((0x20 : Byte)).val = 0x00 by decide),
    if_neg (show ¬((0x20 : Byte)).val = 0x10 by decide),
    if_pos (show ((0x20 : Byte)).val = 0x20 from rfl),
    pyIndex_ok l 1 (by omega), okBind,
    unpack_H_slice l 2 4 (by norm_num) (by omega), okBind,
    unpack_h_slice l 4 6 (by norm_num) (by omega), okBind,
    unpack_I_slice l 6 10 (by norm_num) (by omega), okBind,
    unpack_I_slice l 10 14 (by norm_num) (by omega), okBind]
  rfl

theorem parse_eddystone_of_body_ok (l : List Byte) (r : EddystoneResult)
    (h : parse_eddystone_body l = .ok r) :
    parse_eddystone l = .ok (some r) := by
  unfold parse_eddystone
  rw [h]

theorem parse_eddystone_of_body_err (l : List Byte) (e : String)
    (h : parse_eddystone_body l = .error e) :
    parse_eddystone l = .ok none := by
  unfold parse_eddystone
  rw [h]

/-! Characterization of the csv-variant parse_eddystone on the frames where
it diverges from the ble_scanner.py variant. -/

theorem parse_eddystone_csv_body_url (l : List Byte) (h0 : l.get? 0 = some 0x10)
    (h : 2 ≤ l.length) :
    parse_eddystone_csv_body l = .ok
      { beacon_type := "Eddystone", frame_type := "URL", raw_data := hexEncode l,
        tx_power := some (signed8 (byteAt l 1)) } := by
  unfold parse_eddystone_csv_body
  rw [pyIndex_of_get? h0, okBind, if_neg (show ¬((0x10 : Byte)).val = 0x00 by decide),
    if_pos (show ((0x10 : Byte)).val = 0x10 from rfl),
    unpack_b_slice l 1 2 (by norm_num) (by omega), okBind]
  rfl

theorem parse_eddystone_csv_body_tlm (l : List Byte) (h0 : l.get? 0 = some 0x20)
    (h : 6 ≤ l.length) :
    parse_eddystone_csv_body l = .ok
      { beacon_type := "Eddystone", frame_type := "TLM", raw_data := hexEncode l,
        battery_voltage := some (u16be l 2),
        temperature := some ((s16be l 4 : ℚ) / 256) } := by
  unfold parse_eddystone_csv_body
  rw [pyIndex_of_get? h0, okBind, if_neg (show ¬((0x20 : Byte)).val = 0x00 by decide),
    if_neg (show ¬((0x20 : Byte)).val = 0x10 by decide),
    if_pos (show ((0x20 : Byte)).val = 0x20 from rfl),
    unpack_H_slice l 2 4 (by norm_num) (by omega), okBind,
    unpack_h_slice l 4 6 (by norm_num) (by omega), okBind]
  rfl

theorem parse_eddystone_csv_of_body_ok (l : List Byte) (r : EddystoneCsvResult)
    (h : parse_eddystone_csv_body l = .ok r) :
    parse_eddystone_csv l = .ok (some r) := by
  unfold parse_eddystone_csv
  rw [h]

theorem parse_eddystone_csv_of_body_err (l : List Byte) (e : String)
    (h : parse_eddystone_csv_body l = .error e) :
    parse_eddystone_csv l = .ok none := by
  unfold parse_eddystone_csv
  rw [h]

/-- Every successful run of the parse_eddystone try-block leaves raw_data at
the hex encoding of the input buffer: the branch updates never touch it. -/
theorem parse_eddystone_body_raw (l : List Byte) (r : EddystoneResult)
    (h : parse_eddystone_body l = .ok r) : r.raw_data = hexEncode l := by
  unfold parse_eddystone_body at h
  obtain ⟨ft, hft, h⟩ := exceptBind_ok h
  try dsimp only [] at h
  split_ifs at h with h1 h2 h3
  · obtain ⟨tx, htx, h⟩ := exceptBind_ok h
    try dsimp only [] at h
    rw [pure_ok] at h
    injection h with h
    subst h
    rfl
  · obtain ⟨tx, htx, h⟩ := exceptBind_ok h
    try dsimp only [] at h
    obtain ⟨sc, hsc, h⟩ := exceptBind_ok h
    try dsimp only [] at h
    rw [pure_ok] at h
    injection h with h
    subst h
    rfl
  · obtain ⟨v, hv, h⟩ := exceptBind_ok h
    try dsimp only [] at h
    obtain ⟨bat, hbat, h⟩ := exceptBind_ok h
    try dsimp only [] at h
    obtain ⟨tm, htm, h⟩ := exceptBind_ok h
    try dsimp only [] at h
    obtain ⟨ad, had, h⟩ := exceptBind_ok h
    try dsimp only [] at h
    obtain ⟨sec, hsec, h⟩ := exceptBind_ok h
    try dsimp only [] at h
    rw [pure_ok] at h
    injection h with h
    subst h
    rfl
  · rw [pure_ok] at h
    injection h with h
    subst h
    rfl

/-! Round trip of hex encoding. -/

theorem hexDigitVal_hexDigitL : ∀ n, n < 16 → hexDigitVal (hexDigitL n) = some n := by
  decide

theorem hexDecodeChars_hexChars (l : List Byte) :
    hexDecodeChars (hexChars l) = some l := by
  induction l with
  | nil => rfl
  | cons b t ih =>
      rw [hexChars_cons]
      unfold hexDecodeChars
      have hdiv : b.val / 16 < 16 := by
        rw [Nat.div_lt_iff_lt_mul (by norm_num)]
        exact lt_of_lt_of_le b.isLt (by norm_num)
      have hmod : b.val % 16 < 16 := Nat.mod_lt _ (by norm_num)
      rw [hexDigitVal_hexDigitL _ hdiv, hexDigitVal_hexDigitL _ hmod, ih]
      have hb : b.val / 16 * 16 + b.val % 16 = b.val := by omega
      have hcond : b.val / 16 * 16 + b.val % 16 < 256 := by
        rw [hb]; exact b.isLt
      show (if h : b.val / 16 * 16 + b.val % 16 < 256 then
              some ((⟨b.val / 16 * 16 + b.val % 16, h⟩ : Byte) :: t) else none)
            = some (b :: t)
      rw [dif_pos hcond]
      simp only [Option.some.injEq, List.cons.injEq]
      exact ⟨Fin.ext hb, trivial⟩

theorem hexDecode_hexEncode (l : List Byte) : hexDecode (hexEncode l) = some l := by
  unfold hexDecode hexEncode
  exact hexDecodeChars_hexChars l

/-! Invariance of the structured fields under extension past the fixed
prefix: the field formulas read only bytes below the frame's minimum. -/

theorem byteAt_take_eq {l1 l2 : List Byte} {n i : Nat}
    (h : l1.take n = l2.take n) (hi : i < n) : byteAt l1 i = byteAt l2 i := by
  unfold byteAt
  rw [List.getD_eq_getD_get?, List.getD_eq_getD_get?, List.get?_eq_getElem?,
    List.get?_eq_getElem?]
  have e1 : (l1.take n)[i]? = l1[i]? := by rw [List.getElem?_take]; exact if_pos hi
  have e2 : (l2.take n)[i]? = l2[i]? := by rw [List.getElem?_take]; exact if_pos hi
  rw [← e1, ← e2, h]

theorem pySlice_take_eq {l1 l2 : List Byte} {n a c : Nat}
    (h : l1.take n = l2.take n) (hc : c ≤ n) : pySlice l1 a c = pySlice l2 a c := by
  unfold pySlice
  have e : ∀ l : List Byte, ((l.take n).drop a).take (c - a) = (l.drop a).take (c - a) := by
    intro l
    rw [List.drop_take, List.take_take]
    congr 1
    omega
  rw [← e l1, ← e l2, h]

theorem specUuid_take_eq {l1 l2 : List Byte} (h : l1.take 23 = l2.take 23) :
    specUuid l1 = specUuid l2 := by
  unfold specUuid
  rw [pySlice_take_eq h (by norm_num)]

theorem u16be_take_eq {l1 l2 : List Byte} {n i : Nat}
    (h : l1.take n = l2.take n) (hi : i + 1 < n) : u16be l1 i = u16be l2 i := by
  unfold u16be
  rw [byteAt_take_eq h (by omega), byteAt_take_eq h (by omega)]

theorem s16be_take_eq {l1 l2 : List Byte} {n i : Nat}
    (h : l1.take n = l2.take n) (hi : i + 1 < n) : s16be l1 i = s16be l2 i := by
  unfold s16be
  rw [u16be_take_eq h hi]

theorem u32be_take_eq {l1 l2 : List Byte} {n i : Nat}
    (h : l1.take n = l2.take n) (hi : i + 3 < n) : u32be l1 i = u32be l2 i := by
  unfold u32be
  rw [byteAt_take_eq h (by omega), byteAt_take_eq h (by omega),
    byteAt_take_eq h (by omega), byteAt_take_eq h (by omega)]

/-! The manufacturer-data loop, one step at a time. -/

theorem mfgStep_apple_ok (r : MfgRecord) (data : List Byte) (h : 23 ≤ data.length) :
    mfgStep r (0x004C, data) =
      { company_id := some (formatCompanyId 0x004C), type := some "iBeacon",
        uuid := some (specUuid data), major := some (u16be data 18),
        minor := some (u16be data 20), tx_power := some (signed8 (byteAt data 22)),
        raw_data := some (hexEncode data) } := by
  unfold mfgStep
  rw [parse_ibeacon_ok data h]
  rfl

theorem mfgStep_apple_fail (r : MfgRecord) (data : List Byte) (h : data.length < 23) :
    mfgStep r (0x004C, data) = { r with company_id := some (formatCompanyId 0x004C) } := by
  unfold mfgStep
  rw [parse_ibeacon_short data h]
  rfl

theorem mfgStep_other (r : MfgRecord) (cid : Nat) (data : List Byte)
    (h : cid ≠ 0x004C) :
    mfgStep r (cid, data) =
      { r with
        company_id := some (formatCompanyId cid)
        raw_data := some (hexEncode data) } := by
  unfold mfgStep
  rw [if_neg h]

/-! The claims. -/

/-- Claim C1: for every manufacturer-data buffer of length at least 23, the
iBeacon parser succeeds with uuid the lowercase hex of bytes 2-17 hyphenated
in 8-4-4-4-12 hex-digit groups, major the unsigned big-endian 16-bit integer
at offsets 18-19, minor the one at offsets 20-21, and txPower the signed
8-bit integer at offset 22; in particular the known-good 23-byte buffer
decodes to uuid e2c56db5-dffb-48d2-b060-d0f5a71096e0, major 1, minor 2,
txPower -59. -/
theorem claim_C1_ibeacon_decode :
    (∀ l : List Byte, 23 ≤ l.length →
      parse_ibeacon l = .ok (some
        { type := "iBeacon", uuid := specUuid l, major := u16be l 18,
          minor := u16be l 20, tx_power := signed8 (byteAt l 22),
          raw_data := hexEncode l })) ∧
    parse_ibeacon ibeaconVec = .ok (some ibeaconRecord) :=
  ⟨parse_ibeacon_ok, by rfl⟩

/-- Witness for C1: the universally quantified part applied to the concrete
23-byte test vector. -/
theorem claim_C1_witness :
    parse_ibeacon ibeaconVec = .ok (some
      { type := "iBeacon", uuid := specUuid ibeaconVec,
        major := u16be ibeaconVec 18, minor := u16be ibeaconVec 20,
        tx_power := signed8 (byteAt ibeaconVec 22),
        raw_data := hexEncode ibeaconVec }) :=
  claim_C1_ibeacon_decode.1 ibeaconVec (by decide)

/-- Counterexample to C2: for the manufacturer mapping with the single entry
0x004C mapped to the empty buffer (shorter than 23 bytes), the dispatcher
sets companyId but leaves rawHex unset (None): rawHex does not equal the hex
encoding of the payload, contrary to the claim. -/
theorem claim_C2_counterexample :
    (parse_manufacturer_data [(0x004C, [])]).company_id = some "0x004C" ∧
    (parse_manufacturer_data [(0x004C, [])]).raw_data = none ∧
    (parse_manufacturer_data [(0x004C, [])]).raw_data ≠ some (hexEncode []) :=
  ⟨rfl, rfl, fun h => Option.noConfusion h⟩

/-- Claim C2 as amended: for every payload shorter than 23 bytes under
company ID 0x004C alone, the dispatcher produces a record in which companyId
is set and no iBeacon fields are set, but rawHex is left unset: the Apple
branch does not fall back to the hex of the payload on failure (raw_data is
only written by non-Apple entries or a successful iBeacon decode). -/
theorem claim_C2_apple_short (data : List Byte) (h : data.length < 23) :
    parse_manufacturer_data [(0x004C, data)] =
      { company_id := some "0x004C", type := none, uuid := none, major := none,
        minor := none, tx_power := none, raw_data := none } := by
  unfold parse_manufacturer_data
  rw [List.foldl_cons, List.foldl_nil, mfgStep_apple_fail _ data h]
  rfl

/-- Witness for C2: the amended statement applied to the empty payload. -/
theorem claim_C2_witness :
    parse_manufacturer_data [(0x004C, [])] =
      { company_id := some "0x004C", type := none, uuid := none, major := none,
        minor := none, tx_power := none, raw_data := none } :=
  claim_C2_apple_short [] (by decide)

/-- Counterexample to C3: on a 17-byte Eddystone UID buffer (one short of
the claimed 18-byte minimum) the parser does return a structured result,
with frameType populated and the instance field silently truncated to the
five available bytes: Python slicing does not raise on short buffers. -/
theorem claim_C3_counterexample :
    uid17Vec.length = 17 ∧
    parse_eddystone uid17Vec = .ok (some
      { type := "Eddystone", frame_type := "0x0",
        raw_data := "00c50102030405060708090a0b0c0d0e0f",
        frame_type_name := some "UID", tx_power := some (-59),
        namespace_ := some "0102030405060708090a",
        instance_ := some "0b0c0d0e0f" }) :=
  ⟨rfl, by rfl⟩

/-- Claim C3 as amended: the UID branch requires only length at least 2 (the
txPower unpack); for every such buffer it returns UID fields with namespace
the hex of bytes 2-11 and instance the hex of bytes 12-17, both silently
truncated when the buffer ends early; only the one-byte buffer yields no
structured result. -/
theorem claim_C3_uid_truncated :
    (∀ l : List Byte, l.get? 0 = some 0x00 → 2 ≤ l.length →
      parse_eddystone l = .ok (some
        { type := "Eddystone", frame_type := "0x0", raw_data := hexEncode l,
          frame_type_name := some "UID", tx_power := some (signed8 (byteAt l 1)),
          namespace_ := some (hexEncode (pySlice l 2 12)),
          instance_ := some (hexEncode (pySlice l 12 18)) })) ∧
    parse_eddystone [0x00] = .ok none := by
  constructor
  · intro l h0 h
    exact parse_eddystone_of_body_ok l _ (parse_eddystone_body_uid l h0 h)
  · rfl

/-- Witness for C3: the amended statement applied to the 17-byte UID
buffer. -/
theorem claim_C3_witness :
    parse_eddystone uid17Vec = .ok (some
      { type := "Eddystone", frame_type := "0x0", raw_data := hexEncode uid17Vec,
        frame_type_name := some "UID",
        tx_power := some (signed8 (byteAt uid17Vec 1)),
        namespace_ := some (hexEncode (pySlice uid17Vec 2 12)),
        instance_ := some (hexEncode (pySlice uid17Vec 12 18)) }) :=
  claim_C3_uid_truncated.1 uid17Vec rfl (by decide)

/-- Counterexample to C4: the claim also covers the parse_eddystone of
ble_scanner_to_csv.py, whose TLM branch writes only the frame name, battery
voltage and temperature; on the spec's own TLM buffer that parser returns a
record in which version, advertisingPduCount and secondsSinceBoot are all
absent, in particular version is not the byte at offset 1 as claimed. -/
theorem claim_C4_counterexample :
    parse_eddystone_csv tlmVec = .ok (some csvTlmRecord) ∧
    csvTlmRecord.version = none ∧
    csvTlmRecord.advertising_count = none ∧
    csvTlmRecord.seconds_since_boot = none ∧
    csvTlmRecord.version ≠ some (byteAt tlmVec 1).val :=
  ⟨parse_eddystone_csv_of_body_ok tlmVec _
      (parse_eddystone_csv_body_tlm tlmVec rfl (by decide)),
    rfl, rfl, rfl, fun h => Option.noConfusion h⟩

/-- Claim C4 as amended: the two cited parser copies diverge. The
ble_scanner.py parser behaves exactly as claimed: on every buffer with first
byte 0x20 and length at least 14 it returns version, battery voltage,
temperature (8.8 fixed point), advertising pdu count and seconds since boot
from the claimed offsets, and the spec's TLM buffer decodes to 0, 3044,
12.59375, 5, 1400. The ble_scanner_to_csv.py parser instead requires only
length at least 6 and populates only batteryVoltageMillivolts and
temperatureCelsius, never version, advertisingPduCount or
secondsSinceBoot. -/
theorem claim_C4_tlm_decode :
    (∀ l : List Byte, l.get? 0 = some 0x20 → 14 ≤ l.length →
      parse_eddystone l = .ok (some
        { type := "Eddystone", frame_type := "0x20", raw_data := hexEncode l,
          frame_type_name := some "TLM", version := some (byteAt l 1).val,
          battery_voltage := some (u16be l 2),
          temperature := some ((s16be l 4 : ℚ) / 256),
          advertising_count := some (u32be l 6),
          seconds_since_boot := some (u32be l 10) })) ∧
    (∃ r, parse_eddystone tlmVec = .ok (some r) ∧ r.version = some 0 ∧
      r.battery_voltage = some 3044 ∧ r.temperature = some (12.59375 : ℚ) ∧
      r.advertising_count = some 5 ∧ r.seconds_since_boot = some 1400) ∧
    (∀ l : List Byte, l.get? 0 = some 0x20 → 6 ≤ l.length →
      parse_eddystone_csv l = .ok (some
        { beacon_type := "Eddystone", frame_type := "TLM",
          raw_data := hexEncode l, battery_voltage := some (u16be l 2),
          temperature := some ((s16be l 4 : ℚ) / 256) })) := by
  refine ⟨?_, ?_, ?_⟩
  · intro l h0 h
    exact parse_eddystone_of_body_ok l _ (parse_eddystone_body_tlm l h0 h)
  · refine ⟨_, parse_eddystone_of_body_ok tlmVec _
      (parse_eddystone_body_tlm tlmVec rfl (by decide)), rfl, rfl, ?_, rfl, rfl⟩
    show some ((s16be tlmVec 4 : ℚ) / 256) = some (12.59375 : ℚ)
    have hs : s16be tlmVec 4 = 3224 := by decide
    rw [hs]
    refine congrArg some ?_
    norm_num
  · intro l h0 h
    exact parse_eddystone_csv_of_body_ok l _ (parse_eddystone_csv_body_tlm l h0 h)

/-- Witness for C4: both universally quantified parts applied to the
concrete TLM test buffer. -/
theorem claim_C4_witness :
    parse_eddystone tlmVec = .ok (some
      { type := "Eddystone", frame_type := "0x20", raw_data := hexEncode tlmVec,
        frame_type_name := some "TLM", version := some (byteAt tlmVec 1).val,
        battery_voltage := some (u16be tlmVec 2),
        temperature := some ((s16be tlmVec 4 : ℚ) / 256),
        advertising_count := some (u32be tlmVec 6),
        seconds_since_boot := some (u32be tlmVec 10) }) ∧
    parse_eddystone_csv tlmVec = .ok (some
      { beacon_type := "Eddystone", frame_type := "TLM",
        raw_data := hexEncode tlmVec, battery_voltage := some (u16be tlmVec 2),
        temperature := some ((s16be tlmVec 4 : ℚ) / 256) }) :=
  ⟨claim_C4_tlm_decode.1 tlmVec rfl (by decide),
    claim_C4_tlm_decode.2.2 tlmVec rfl (by decide)⟩

/-- Counterexample to C5: the claim also covers the parse_eddystone of
ble_scanner_to_csv.py, whose URL branch never accesses the scheme byte: on
the 2-byte buffer 10 C5, one byte short of the claimed 3-byte minimum, that
parser returns a structured URL result rather than no result, and the
result carries neither urlScheme nor encodedUrl. -/
theorem claim_C5_counterexample :
    parse_eddystone_csv [0x10, 0xC5] = .ok (some csvUrlRecord) ∧
    parse_eddystone_csv [0x10, 0xC5] ≠ .ok none ∧
    csvUrlRecord.url_scheme = none ∧
    csvUrlRecord.encoded_url = none := by
  refine ⟨by rfl, ?_, rfl, rfl⟩
  intro h
  rw [show parse_eddystone_csv [0x10, 0xC5] = .ok (some csvUrlRecord) from rfl] at h
  injection h with h2
  exact Option.noConfusion h2

/-- Claim C5 as amended: the two cited parser copies diverge. The
ble_scanner.py URL branch behaves exactly as claimed: for buffers with first
byte 0x10 and length at least 3 it returns txPower from offset 1, urlScheme
from offset 2 and encodedUrl the hex of the bytes from offset 3 on, and
shorter such buffers yield no structured result. The ble_scanner_to_csv.py
URL branch requires only length at least 2, sets only txPower (never
urlScheme or encodedUrl), and returns a structured result even for 2-byte
buffers; only the 1-byte buffer fails. -/
theorem claim_C5_url_decode :
    (∀ l : List Byte, l.get? 0 = some 0x10 → 3 ≤ l.length →
      parse_eddystone l = .ok (some
        { type := "Eddystone", frame_type := "0x10", raw_data := hexEncode l,
          frame_type_name := some "URL", tx_power := some (signed8 (byteAt l 1)),
          url_scheme := some (byteAt l 2).val,
          encoded_url := some (hexEncode (l.drop 3)) })) ∧
    (∀ l : List Byte, l.get? 0 = some 0x10 → l.length < 3 →
      parse_eddystone l = .ok none) ∧
    (∀ l : List Byte, l.get? 0 = some 0x10 → 2 ≤ l.length →
      parse_eddystone_csv l = .ok (some
        { beacon_type := "Eddystone", frame_type := "URL",
          raw_data := hexEncode l,
          tx_power := some (signed8 (byteAt l 1)) })) ∧
    parse_eddystone_csv [0x10] = .ok none := by
  refine ⟨?_, ?_, ?_, by rfl⟩
  · intro l h0 h
    exact parse_eddystone_of_body_ok l _ (parse_eddystone_body_url l h0 h)
  · intro l h0 h
    rcases l with _ | ⟨a, _ | ⟨b, _ | ⟨c, t⟩⟩⟩
    · exact absurd h0 (by simp)
    · have ha : a = 0x10 := by simpa using h0
      subst ha
      rfl
    · have ha : a = 0x10 := by simpa using h0
      subst ha
      refine parse_eddystone_of_body_err _ "IndexError" ?_
      unfold parse_eddystone_body
      rw [pyIndex_of_get? (show [(0x10 : Byte), b].get? 0 = some 0x10 from rfl),
        okBind, if_neg (show ¬((0x10 : Byte)).val = 0x00 by decide),
        if_pos (show ((0x10 : Byte)).val = 0x10 from rfl),
        unpack_b_slice [0x10, b] 1 2 (by norm_num) (by simp), okBind]
      rfl
    · exfalso
      simp only [List.length_cons] at h
      omega
  · intro l h0 h
    exact parse_eddystone_csv_of_body_ok l _ (parse_eddystone_csv_body_url l h0 h)

/-- Witness for C5: the ble_scanner.py URL branch applied to a concrete
3-byte buffer, and the csv-variant branch applied to a concrete 2-byte
buffer. -/
theorem claim_C5_witness :
    parse_eddystone [0x10, 0xC5, 0x02] = .ok (some
      { type := "Eddystone", frame_type := "0x10",
        raw_data := hexEncode [0x10, 0xC5, 0x02],
        frame_type_name := some "URL",
        tx_power := some (signed8 (byteAt [0x10, 0xC5, 0x02] 1)),
        url_scheme := some (byteAt [0x10, 0xC5, 0x02] 2).val,
        encoded_url := some (hexEncode ([(0x10 : Byte), 0xC5, 0x02].drop 3)) }) ∧
    parse_eddystone_csv [0x10, 0xC5] = .ok (some
      { beacon_type := "Eddystone", frame_type := "URL",
        raw_data := hexEncode [0x10, 0xC5],
        tx_power := some (signed8 (byteAt [0x10, 0xC5] 1)) }) :=
  ⟨claim_C5_url_decode.1 [0x10, 0xC5, 0x02] rfl (by decide),
    claim_C5_url_decode.2.2.1 [0x10, 0xC5] rfl (by decide)⟩

/-- Counterexample to C6: on the mapping of a valid 23-byte iBeacon payload
under 0x004C followed by a 3-byte payload under 0x0999, the final record
keeps the uuid decoded from the earlier entry while companyId and rawHex
come from the later one: a field populated from an earlier entry survives,
contrary to the claim that no such field survives. -/
theorem claim_C6_counterexample :
    (parse_manufacturer_data mfgVecC6).company_id = some "0x0999" ∧
    (parse_manufacturer_data mfgVecC6).raw_data = some "010203" ∧
    (parse_manufacturer_data mfgVecC6).uuid
      = some "e2c56db5-dffb-48d2-b060-d0f5a71096e0" ∧
    (parse_manufacturer_data mfgVecC6).uuid ≠ none :=
  ⟨rfl, rfl, rfl, fun h => Option.noConfusion h⟩

/-- Claim C6 as amended: later entries overwrite companyId and the keys they
themselves write (rawHex for a non-Apple entry), while structured fields set
only by earlier entries survive: the merge is a per-key dict update, not a
record replacement, so the final record mixes both entries. -/
theorem claim_C6_last_write (ib payload : List Byte) (h : 23 ≤ ib.length) :
    parse_manufacturer_data [(0x004C, ib), (0x0999, payload)] =
      { company_id := some "0x0999", type := some "iBeacon",
        uuid := some (specUuid ib), major := some (u16be ib 18),
        minor := some (u16be ib 20), tx_power := some (signed8 (byteAt ib 22)),
        raw_data := some (hexEncode payload) } := by
  unfold parse_manufacturer_data
  rw [List.foldl_cons, List.foldl_cons, List.foldl_nil, mfgStep_apple_ok _ ib h,
    mfgStep_other _ 0x0999 payload (by norm_num)]
  rfl

/-- Witness for C6: the amended statement applied to the concrete two-entry
mapping. -/
theorem claim_C6_witness :
    parse_manufacturer_data [(0x004C, ibeaconVec), (0x0999, [0x01, 0x02, 0x03])] =
      { company_id := some "0x0999", type := some "iBeacon",
        uuid := some (specUuid ibeaconVec), major := some (u16be ibeaconVec 18),
        minor := some (u16be ibeaconVec 20),
        tx_power := some (signed8 (byteAt ibeaconVec 22)),
        raw_data := some (hexEncode [0x01, 0x02, 0x03]) } :=
  claim_C6_last_write ibeaconVec [0x01, 0x02, 0x03] (by decide)

/-- Claim C7: on every input buffer, including the empty one, both parsers
terminate with an ok outcome: the try/except boundary converts every raised
error into the no-result value, and no error propagates to the caller. -/
theorem claim_C7_no_throw (l : List Byte) :
    (∃ o, parse_ibeacon l = .ok o) ∧ (∃ o, parse_eddystone l = .ok o) := by
  constructor
  · unfold parse_ibeacon
    cases parse_ibeacon_body l with
    | ok r => exact ⟨r, rfl⟩
    | error e => exact ⟨none, rfl⟩
  · cases hb : parse_eddystone_body l with
    | ok r => exact ⟨some r, parse_eddystone_of_body_ok l r hb⟩
    | error e => exact ⟨none, parse_eddystone_of_body_err l e hb⟩

/-- Claim C8: whenever a decode result carries a raw_data value, it is the
lowercase hex encoding of the source buffer, and hex-decoding it reproduces
the original buffer byte for byte; hex-encode then hex-decode is the
identity on every byte buffer. -/
theorem claim_C8_rawhex_roundtrip :
    (∀ (l : List Byte) (r : IBeaconResult), parse_ibeacon l = .ok (some r) →
      r.raw_data = hexEncode l ∧ hexDecode r.raw_data = some l) ∧
    (∀ (l : List Byte) (r : EddystoneResult), parse_eddystone l = .ok (some r) →
      r.raw_data = hexEncode l ∧ hexDecode r.raw_data = some l) ∧
    (∀ l : List Byte, hexDecode (hexEncode l) = some l) := by
  refine ⟨?_, ?_, hexDecode_hexEncode⟩
  · intro l r h
    rcases Nat.lt_or_ge l.length 23 with hlt | hge
    · rw [parse_ibeacon_short l hlt] at h
      exact absurd h (by simp)
    · rw [parse_ibeacon_ok l hge] at h
      simp only [Except.ok.injEq, Option.some.injEq] at h
      subst h
      exact ⟨rfl, hexDecode_hexEncode l⟩
  · intro l r h
    cases hb : parse_eddystone_body l with
    | error e =>
        rw [parse_eddystone_of_body_err l e hb] at h
        exact absurd h (by simp)
    | ok rr =>
        rw [parse_eddystone_of_body_ok l rr hb] at h
        simp only [Except.ok.injEq, Option.some.injEq] at h
        subst h
        refine ⟨parse_eddystone_body_raw l rr hb, ?_⟩
        rw [parse_eddystone_body_raw l rr hb]
        exact hexDecode_hexEncode l

/-- Witness for C8: the raw-hex clause applied to the concrete iBeacon test
vector and its decoded record. -/
theorem claim_C8_witness :
    ibeaconRecord.raw_data = hexEncode ibeaconVec ∧
    hexDecode ibeaconRecord.raw_data = some ibeaconVec :=
  claim_C8_rawhex_roundtrip.1 ibeaconVec ibeaconRecord (by rfl)

/-- Claim C9: for every service-data buffer with first byte 0x10 and length
at least 3, the URL decode succeeds for every value of the byte at offset 2
and surfaces it unchanged as url_scheme: no validation restricts it to the
four defined scheme-table indices. -/
theorem claim_C9_url_scheme_unvalidated (l : List Byte)
    (h0 : l.get? 0 = some 0x10) (h : 3 ≤ l.length) :
    ∃ r, parse_eddystone l = .ok (some r) ∧ r.url_scheme = some (byteAt l 2).val :=
  ⟨_, parse_eddystone_of_body_ok l _ (parse_eddystone_body_url l h0 h), rfl⟩

/-- Witness for C9: applied to a buffer whose scheme byte 0xFF lies outside
the four-entry scheme-prefix table; the decode still succeeds and surfaces
255. -/
theorem claim_C9_witness :
    ∃ r, parse_eddystone [0x10, 0x00, 0xFF] = .ok (some r) ∧
      r.url_scheme = some (byteAt [0x10, 0x00, 0xFF] 2).val :=
  claim_C9_url_scheme_unvalidated [0x10, 0x00, 0xFF] rfl (by decide)

/-- Claim C10: buffers agreeing on the fixed prefix decode to the same
structured fields: two manufacturer buffers of length at least 23 agreeing
on their first 23 bytes yield iBeacon records agreeing on uuid, major,
minor and tx_power; two TLM buffers of length at least 14 agreeing on their
first 14 bytes yield records agreeing on every structured TLM field;
trailing bytes never influence a structured field. -/
theorem claim_C10_prefix_determinism :
    (∀ l1 l2 : List Byte, 23 ≤ l1.length → 23 ≤ l2.length →
      l1.take 23 = l2.take 23 →
      ∃ r1 r2, parse_ibeacon l1 = .ok (some r1) ∧ parse_ibeacon l2 = .ok (some r2) ∧
        r1.uuid = r2.uuid ∧ r1.major = r2.major ∧ r1.minor = r2.minor ∧
        r1.tx_power = r2.tx_power) ∧
    (∀ l1 l2 : List Byte, l1.get? 0 = some 0x20 → 14 ≤ l1.length →
      14 ≤ l2.length → l1.take 14 = l2.take 14 →
      ∃ r1 r2, parse_eddystone l1 = .ok (some r1) ∧
        parse_eddystone l2 = .ok (some r2) ∧
        r1.version = r2.version ∧ r1.battery_voltage = r2.battery_voltage ∧
        r1.temperature = r2.temperature ∧
        r1.advertising_count = r2.advertising_count ∧
        r1.seconds_since_boot = r2.seconds_since_boot) := by
  constructor
  · intro l1 l2 h1 h2 ht
    refine ⟨_, _, parse_ibeacon_ok l1 h1, parse_ibeacon_ok l2 h2, ?_, ?_, ?_, ?_⟩
    · exact specUuid_take_eq ht
    · exact u16be_take_eq ht (by norm_num)
    · exact u16be_take_eq ht (by norm_num)
    · exact congrArg signed8 (byteAt_take_eq ht (by norm_num))
  · intro l1 l2 h0 h1 h2 ht
    have e1 : l1[0]? = l2[0]? := by
      have q1 : (l1.take 14)[0]? = l1[0]? := by
        rw [List.getElem?_take]; exact if_pos (by norm_num)
      have q2 : (l2.take 14)[0]? = l2[0]? := by
        rw [List.getElem?_take]; exact if_pos (by norm_num)
      rw [← q1, ← q2, ht]
    have h0' : l2.get? 0 = some 0x20 := by
      rw [List.get?_eq_getElem?, ← e1, ← List.get?_eq_getElem?]
      exact h0
    refine ⟨_, _,
      parse_eddystone_of_body_ok l1 _ (parse_eddystone_body_tlm l1 h0 h1),
      parse_eddystone_of_body_ok l2 _ (parse_eddystone_body_tlm l2 h0' h2),
      ?_, ?_, ?_, ?_, ?_⟩
    · show some (byteAt l1 1).val = some (byteAt l2 1).val
      rw [byteAt_take_eq ht (by norm_num)]
    · show some (u16be l1 2) = some (u16be l2 2)
      rw [u16be_take_eq ht (by norm_num)]
    · show some ((s16be l1 4 : ℚ) / 256) = some ((s16be l2 4 : ℚ) / 256)
      rw [s16be_take_eq ht (by norm_num)]
    · show some (u32be l1 6) = some (u32be l2 6)
      rw [u32be_take_eq ht (by norm_num)]
    · show some (u32be l1 10) = some (u32be l2 10)
      rw [u32be_take_eq ht (by norm_num)]

/-- Witness for C10: the iBeacon clause applied to the concrete test vector
and its extension by one trailing byte. -/
theorem claim_C10_witness :
    ∃ r1 r2, parse_ibeacon ibeaconVec = .ok (some r1) ∧
      parse_ibeacon (ibeaconVec ++ [0xAA]) = .ok (some r2) ∧
      r1.uuid = r2.uuid ∧ r1.major = r2.major ∧ r1.minor = r2.minor ∧
      r1.tx_power = r2.tx_power :=
  claim_C10_prefix_determinism.1 ibeaconVec (ibeaconVec ++ [0xAA])
    (by decide) (by decide) (by decide)

end BLE
